import Mathlib

/-!
Verification of the PDF-Editor annotation geometry and compositing engine.

Shallow embedding of the TypeScript sources:
  - src/types.ts            (data model)
  - src/utils/pdfUtils.ts   (loadPDF, generateFinalPDF, renderHighResPage)
  - src/components/AnnotationEditor.tsx (gesture handlers, renderAnnotation)
  - src/App.tsx             (rotateSelected, thumbnail overlay, copyToClipboard)

JavaScript numbers are modelled as exact rationals (ℚ) for the arithmetic
claims, and as reals (ℝ) for the arrow-head trigonometry, where the code
uses Math.atan2 / Math.cos / Math.sin.  Ids (crypto.randomUUID) are
modelled as opaque naturals.
-/

namespace PDFEditor

/-- Annotation kinds: the tagged union of src/types.ts
(`'rect' | 'arrow' | 'text' | 'highlight' | 'image'`). -/
inductive AnnType where
  | rect
  | arrow
  | text
  | highlight
  | image
deriving DecidableEq, Repr

/-- The stored `Annotation` record of src/types.ts.  `width`, `height`,
`text`, `fontSize`, `fontWeight`, `imageData` are optional fields. -/
@[ext]
structure Ann where
  id : ℕ
  type : AnnType
  x : ℚ
  y : ℚ
  width : Option ℚ
  height : Option ℚ
  text : Option String
  color : String
  fontSize : Option ℚ
  fontWeight : Option String
  imageData : Option String
deriving DecidableEq, Repr

/-- JavaScript `ann.width || 0` (undefined and 0 both give 0). -/
def wOr0 (a : Ann) : ℚ := a.width.getD 0

/-- JavaScript `ann.height || 0`. -/
def hOr0 (a : Ann) : ℚ := a.height.getD 0

/-- A box `(x, y, width, height)` with a possibly negative extent. -/
@[ext]
structure Box where
  x : ℚ
  y : ℚ
  w : ℚ
  h : ℚ
deriving DecidableEq, Repr

/-- The box read off an annotation before normalization:
`boxX = ann.x || 0; boxY = ann.y || 0; boxW = ann.width || 0;
boxH = ann.height || 0` (pdfUtils.ts:126-129, AnnotationEditor.tsx:306-309,
App.tsx:420-423; `x`, `y` are required fields, so `|| 0` is the identity
on them except at 0, where it is also the identity). -/
def annBox (a : Ann) : Box :=
  { x := a.x, y := a.y, w := wOr0 a, h := hOr0 a }

/-- First normalization statement:
`if (boxW < 0) { boxX += boxW; boxW = Math.abs(boxW); }`. -/
def normalizeBoxW (b : Box) : Box :=
  if b.w < 0 then { b with x := b.x + b.w, w := |b.w| } else b

/-- Second normalization statement:
`if (boxH < 0) { boxY += boxH; boxH = Math.abs(boxH); }`. -/
def normalizeBoxH (b : Box) : Box :=
  if b.h < 0 then { b with y := b.y + b.h, h := |b.h| } else b

/-- Box normalization, identical at all three render sites
(pdfUtils.ts:133-134, AnnotationEditor.tsx:312-313, App.tsx:424-425):
the two statements above run in sequence. -/
def normalizeBox (b : Box) : Box := normalizeBoxH (normalizeBoxW b)

lemma normalizeBoxW_y (b : Box) : (normalizeBoxW b).y = b.y := by
  unfold normalizeBoxW; split_ifs <;> rfl

lemma normalizeBoxW_h (b : Box) : (normalizeBoxW b).h = b.h := by
  unfold normalizeBoxW; split_ifs <;> rfl

lemma normalizeBoxW_x (b : Box) : (normalizeBoxW b).x = min b.x (b.x + b.w) := by
  unfold normalizeBoxW
  split_ifs with hw
  · dsimp only
    exact (min_eq_right (by linarith)).symm
  · exact (min_eq_left (by linarith [not_lt.mp hw])).symm

lemma normalizeBoxW_w (b : Box) : (normalizeBoxW b).w = |b.w| := by
  unfold normalizeBoxW
  split_ifs with hw
  · rfl
  · exact (abs_of_nonneg (not_lt.mp hw)).symm

lemma normalizeBoxH_x (b : Box) : (normalizeBoxH b).x = b.x := by
  unfold normalizeBoxH; split_ifs <;> rfl

lemma normalizeBoxH_w (b : Box) : (normalizeBoxH b).w = b.w := by
  unfold normalizeBoxH; split_ifs <;> rfl

lemma normalizeBoxH_y (b : Box) : (normalizeBoxH b).y = min b.y (b.y + b.h) := by
  unfold normalizeBoxH
  split_ifs with hh
  · dsimp only
    exact (min_eq_right (by linarith)).symm
  · exact (min_eq_left (by linarith [not_lt.mp hh])).symm

lemma normalizeBoxH_h (b : Box) : (normalizeBoxH b).h = |b.h| := by
  unfold normalizeBoxH
  split_ifs with hh
  · rfl
  · exact (abs_of_nonneg (not_lt.mp hh)).symm

/-- Closed form of the normalization: min corner plus absolute extents. -/
lemma normalizeBox_eq (b : Box) :
    normalizeBox b = ⟨min b.x (b.x + b.w), min b.y (b.y + b.h), |b.w|, |b.h|⟩ := by
  ext
  · rw [normalizeBox, normalizeBoxH_x, normalizeBoxW_x]
  · rw [normalizeBox, normalizeBoxH_y, normalizeBoxW_y, normalizeBoxW_h]
  · rw [normalizeBox, normalizeBoxH_w, normalizeBoxW_w]
  · rw [normalizeBox, normalizeBoxH_h, normalizeBoxW_h]

lemma normalizeBox_idem (b : Box) : normalizeBox (normalizeBox b) = normalizeBox b := by
  rw [normalizeBox_eq b, normalizeBox_eq]
  ext <;> dsimp only
  · exact min_eq_left (le_add_of_nonneg_right (abs_nonneg _))
  · exact min_eq_left (le_add_of_nonneg_right (abs_nonneg _))
  · exact abs_abs _
  · exact abs_abs _

lemma normalizeBox_x_add_w (b : Box) :
    (normalizeBox b).x + (normalizeBox b).w = max b.x (b.x + b.w) := by
  rw [normalizeBox_eq]; dsimp only
  rcases abs_cases b.w with ⟨hw, hw0⟩ | ⟨hw, hw0⟩
  · rw [hw, min_eq_left (by linarith), max_eq_right (by linarith)]
  · rw [hw, min_eq_right (by linarith), max_eq_left (by linarith)]; ring

lemma normalizeBox_y_add_h (b : Box) :
    (normalizeBox b).y + (normalizeBox b).h = max b.y (b.y + b.h) := by
  rw [normalizeBox_eq]; dsimp only
  rcases abs_cases b.h with ⟨hh, hh0⟩ | ⟨hh, hh0⟩
  · rw [hh, min_eq_left (by linarith), max_eq_right (by linarith)]
  · rw [hh, min_eq_right (by linarith), max_eq_left (by linarith)]; ring

/-- The normalized box a render call computes for an annotation.  It is a
pure function of the annotation: the code copies the fields into local
variables (`let boxX = ann.x; ...`) and normalizes those, never writing
back into the annotation. -/
def renderBoxOf (a : Ann) : Box := normalizeBox (annBox a)

/-- One render pass of the editor overlay over the stored annotation list
(`annotations.map(ann => renderAnnotation(ann))`,
AnnotationEditor.tsx:539): it produces a normalized box per annotation
and leaves the stored list exactly as it was (rendering performs no
state update). -/
def renderPassEd (anns : List Ann) : List Box × List Ann :=
  (anns.map renderBoxOf, anns)

/-- Claim C2: for every box `(x, y, width, height)`, the normalization rule
is idempotent, always yields non-negative width and height, covers the same
absolute region as the input box (same min/max corners on each axis), and
never mutates the stored annotations — a render pass recomputes the
normalized box per call and returns the stored list unchanged. -/
theorem C2_normalization_idempotent_sign_correct (b : Box) (anns : List Ann) :
    normalizeBox (normalizeBox b) = normalizeBox b
    ∧ 0 ≤ (normalizeBox b).w ∧ 0 ≤ (normalizeBox b).h
    ∧ (normalizeBox b).x = min b.x (b.x + b.w)
    ∧ (normalizeBox b).x + (normalizeBox b).w = max b.x (b.x + b.w)
    ∧ (normalizeBox b).y = min b.y (b.y + b.h)
    ∧ (normalizeBox b).y + (normalizeBox b).h = max b.y (b.y + b.h)
    ∧ (renderPassEd anns).2 = anns := by
  refine ⟨normalizeBox_idem b, ?_, ?_, ?_, normalizeBox_x_add_w b, ?_,
    normalizeBox_y_add_h b, rfl⟩
  · rw [normalizeBox_eq]; exact abs_nonneg _
  · rw [normalizeBox_eq]; exact abs_nonneg _
  · rw [normalizeBox_eq]
  · rw [normalizeBox_eq]

/-! ## Claim C1: highlight alpha across the three rendering targets -/

/-- Fixed alpha of the editor-overlay highlight fill
(AnnotationEditor.tsx:405, `opacity: 0.3`). -/
def editorHighlightAlpha : ℚ := 3/10

/-- Fixed alpha of the grid-thumbnail highlight fill
(App.tsx:435, `opacity: 0.3`). -/
def thumbnailHighlightAlpha : ℚ := 3/10

/-- Fixed alpha of the export-flattener highlight fill
(pdfUtils.ts:138, `ctx.globalAlpha = 0.4`). -/
def exportHighlightAlpha : ℚ := 4/10

/-- Region and alpha the editor overlay fills for a highlight annotation:
the normalized box (AnnotationEditor.tsx:306-313, positioned by `style`)
at fixed opacity 0.3 (line 405). -/
def editorHighlightFill (a : Ann) : Box × ℚ := (renderBoxOf a, editorHighlightAlpha)

/-- Region and alpha the grid thumbnail overlay fills for a highlight:
the normalized box (App.tsx:420-430) at fixed opacity 0.3 (line 435). -/
def thumbnailHighlightFill (a : Ann) : Box × ℚ := (renderBoxOf a, thumbnailHighlightAlpha)

/-- Region and alpha the export flattener fills for a highlight:
`ctx.fillRect(boxX, boxY, boxW, boxH)` on the normalized box
(pdfUtils.ts:126-139) at `globalAlpha = 0.4`. -/
def exportHighlightFill (a : Ann) : Box × ℚ := (renderBoxOf a, exportHighlightAlpha)

/-- A concrete highlight annotation, used as the C1 counterexample input. -/
def hlAnn : Ann :=
  { id := 0, type := AnnType.highlight, x := 10, y := 20,
    width := some 30, height := some 40, text := none, color := "#ffff00",
    fontSize := none, fontWeight := none, imageData := none }

/-- Claim C1 as stated is false: on the concrete highlight `hlAnn`, the
editor overlay fills at alpha 0.3 while the export flattener fills at
alpha 0.4 — the three targets do not use one and the same constant. -/
theorem C1_highlight_alpha_counterexample :
    (editorHighlightFill hlAnn).2 ≠ (exportHighlightFill hlAnn).2 := by
  norm_num [editorHighlightFill, exportHighlightFill, editorHighlightAlpha,
    exportHighlightAlpha]

/-- Claim C1, amended: all three targets fill the same normalized box, and
each uses a fixed alpha in the range 0.3–0.4; but the constant is not
shared: the editor overlay and the thumbnail overlay use 0.3 while the
export flattener uses 0.4. -/
theorem C1_highlight_alpha_amended (a : Ann) :
    (editorHighlightFill a).1 = (exportHighlightFill a).1
    ∧ (thumbnailHighlightFill a).1 = (exportHighlightFill a).1
    ∧ (editorHighlightFill a).2 = 3/10
    ∧ (thumbnailHighlightFill a).2 = 3/10
    ∧ (exportHighlightFill a).2 = 4/10
    ∧ ((3:ℚ)/10 ≤ (editorHighlightFill a).2 ∧ (editorHighlightFill a).2 ≤ 4/10)
    ∧ ((3:ℚ)/10 ≤ (thumbnailHighlightFill a).2 ∧ (thumbnailHighlightFill a).2 ≤ 4/10)
    ∧ ((3:ℚ)/10 ≤ (exportHighlightFill a).2 ∧ (exportHighlightFill a).2 ≤ 4/10) := by
  refine ⟨rfl, rfl, rfl, rfl, rfl, ⟨le_refl _, ?_⟩, ⟨le_refl _, ?_⟩, ⟨?_, le_refl _⟩⟩ <;>
    norm_num [editorHighlightFill, thumbnailHighlightFill, exportHighlightFill,
      editorHighlightAlpha, thumbnailHighlightAlpha, exportHighlightAlpha]

/-! ## Pointer gestures: move, resize, draw -/

/-- A pointer position in page-intrinsic units (the result of
`getPointerPos`, AnnotationEditor.tsx:79-93). -/
structure Point where
  x : ℚ
  y : ℚ
deriving DecidableEq, Repr

/-- JavaScript `s.includes(c)` for a one-character needle: membership of
the character in the string. -/
def includesChar (s : String) (c : Char) : Bool := s.data.contains c

/-- Pointer-move while moving a selected annotation
(AnnotationEditor.tsx:152-162): the selected list entry `ann` gets
`x := initialAnnState.x + dx, y := initialAnnState.y + dy` where
`dx, dy` is the total delta from `interactionStartPos` to the current
pointer position; every other field of `ann` is kept (`{ ...ann, ... }`). -/
def moveStep (initialAnnState : Ann) (interactionStartPos cur : Point) (ann : Ann) : Ann :=
  let dx := cur.x - interactionStartPos.x
  let dy := cur.y - interactionStartPos.y
  { ann with x := initialAnnState.x + dx, y := initialAnnState.y + dy }

/-- Net effect of one complete move gesture: pointer-down on the
annotation snapshots it (`setInitialAnnState({ ...ann })`,
AnnotationEditor.tsx:233) with `interactionStartPos` the down position;
pointer-up keeps the last recomputed position (lines 199-202). -/
def moveGesture (a : Ann) (downPos upPos : Point) : Ann :=
  moveStep a downPos upPos a

/-- Pointwise sum of two pointer vectors, used to state additivity. -/
def ptAdd (p q : Point) : Point := ⟨p.x + q.x, p.y + q.y⟩

/-- Claim C6: every move pointer-move sets the position to the
gesture-start snapshot plus the total delta (never incrementally) —
intermediate pointer-moves of the same gesture do not affect the result —
and two sequential move gestures with net deltas d1 and d2 leave the
annotation exactly where one gesture with net delta d1 + d2 would. -/
theorem C6_move_snapshot_additive (initialAnnState : Ann) (s c c1 : Point) (ann : Ann) :
    ((moveStep initialAnnState s c ann).x = initialAnnState.x + (c.x - s.x)
      ∧ (moveStep initialAnnState s c ann).y = initialAnnState.y + (c.y - s.y))
    ∧ moveStep initialAnnState s c (moveStep initialAnnState s c1 ann)
        = moveStep initialAnnState s c ann
    ∧ ∀ (a : Ann) (s1 s2 t d1 d2 : Point),
        moveGesture (moveGesture a s1 (ptAdd s1 d1)) s2 (ptAdd s2 d2)
          = moveGesture a t (ptAdd t (ptAdd d1 d2)) := by
  refine ⟨⟨rfl, rfl⟩, rfl, ?_⟩
  intro a s1 s2 t d1 d2
  simp only [moveGesture, moveStep, ptAdd]
  ext <;> dsimp only <;> first
    | rfl
    | ring

/-- Pointer-move while resizing (AnnotationEditor.tsx:166-185): starting
from the gesture-start snapshot `initialAnnState`, with total delta
`dx, dy` from `interactionStartPos`, each handle letter contributes:
`if (resizeHandle.includes('e')) newW += dx;
 if (resizeHandle.includes('w')) { newX += dx; newW -= dx; }
 if (resizeHandle.includes('s')) newH += dy;
 if (resizeHandle.includes('n')) { newY += dy; newH -= dy; }`;
the result is stored with no clamping (`{ ...ann, x, y, width, height }`). -/
def resizeStep (initialAnnState : Ann) (resizeHandle : String)
    (interactionStartPos cur : Point) (ann : Ann) : Ann :=
  let dx := cur.x - interactionStartPos.x
  let dy := cur.y - interactionStartPos.y
  let newX := initialAnnState.x
  let newY := initialAnnState.y
  let newW := wOr0 initialAnnState
  let newH := hOr0 initialAnnState
  let newW := if includesChar resizeHandle 'e' then newW + dx else newW
  let newX := if includesChar resizeHandle 'w' then newX + dx else newX
  let newW := if includesChar resizeHandle 'w' then newW - dx else newW
  let newH := if includesChar resizeHandle 's' then newH + dy else newH
  let newY := if includesChar resizeHandle 'n' then newY + dy else newY
  let newH := if includesChar resizeHandle 'n' then newH - dy else newH
  { ann with x := newX, y := newY, width := some newW, height := some newH }

/-- Claim C3: a resize pointer-move recomputes the geometry from the
gesture-start snapshot and the total delta, each handle letter
contributing independently (`e`: width += dx; `w`: x += dx, width -= dx;
`s`: height += dy; `n`: y += dy, height -= dy); intermediate moves of the
gesture do not affect the result; non-geometry fields are untouched; and
the result is stored unclamped — it can have negative width. -/
theorem C3_resize_handle_contributions (initialAnnState : Ann) (handle : String)
    (s c c1 : Point) (ann : Ann) :
    ((resizeStep initialAnnState handle s c ann).x
        = initialAnnState.x + (if includesChar handle 'w' then c.x - s.x else 0)
      ∧ (resizeStep initialAnnState handle s c ann).y
        = initialAnnState.y + (if includesChar handle 'n' then c.y - s.y else 0)
      ∧ (resizeStep initialAnnState handle s c ann).width
        = some (wOr0 initialAnnState + (if includesChar handle 'e' then c.x - s.x else 0)
            - (if includesChar handle 'w' then c.x - s.x else 0))
      ∧ (resizeStep initialAnnState handle s c ann).height
        = some (hOr0 initialAnnState + (if includesChar handle 's' then c.y - s.y else 0)
            - (if includesChar handle 'n' then c.y - s.y else 0)))
    ∧ (resizeStep initialAnnState handle s c ann).color = ann.color
    ∧ (resizeStep initialAnnState handle s c ann).id = ann.id
    ∧ resizeStep initialAnnState handle s c (resizeStep initialAnnState handle s c1 ann)
        = resizeStep initialAnnState handle s c ann
    ∧ ∃ (i a : Ann) (h : String) (p q : Point) (neg : ℚ),
        (resizeStep i h p q a).width = some neg ∧ neg < 0 := by
  refine ⟨⟨?_, ?_, ?_, ?_⟩, rfl, rfl, rfl, ?_⟩
  · simp only [resizeStep]
    split_ifs <;> first
      | rfl
      | ring
  · simp only [resizeStep]
    split_ifs <;> first
      | rfl
      | ring
  · simp only [resizeStep, Option.some.injEq]
    split_ifs <;> first
      | rfl
      | ring
  · simp only [resizeStep, Option.some.injEq]
    split_ifs <;> first
      | rfl
      | ring
  · refine ⟨hlAnn, hlAnn, "se", ⟨0, 0⟩, ⟨-100, -100⟩, -70, ?_, by norm_num⟩
    simp only [resizeStep, Option.some.injEq]
    norm_num [includesChar, hlAnn, wOr0]
    decide

/-! ## Drawing gestures: pointer-down, pointer-move, pointer-up -/

/-- The provisional `Partial<Annotation>` built while drawing a shape. -/
structure DraftAnn where
  type : AnnType
  x : ℚ
  y : ℚ
  width : ℚ
  height : ℚ
  color : String
deriving DecidableEq, Repr

/-- Pointer-down with a drawing tool, shape branch
(AnnotationEditor.tsx:133-145):
`const shapeColor = tool === 'highlight' ? '#ffff00' : color;`
then a provisional annotation with zero extent at the click point. -/
def startShapeDraw (tool : AnnType) (pos : Point) (color : String) : DraftAnn :=
  let shapeColor := if tool = AnnType.highlight then "#ffff00" else color
  { type := tool, x := pos.x, y := pos.y, width := 0, height := 0, color := shapeColor }

/-- The same pointer-down branch with the toolbar color state threaded
through: the handler never calls `setColor`, so the shared toolbar color
after the handler is the color before it. -/
def startShapeDrawState (tool : AnnType) (pos : Point) (color : String) :
    DraftAnn × String :=
  (startShapeDraw tool pos color, color)

/-- Pointer-move while drawing (AnnotationEditor.tsx:190-196): width and
height become the signed vector from `dragStartPos` to the pointer. -/
def drawMove (dragStartPos cur : Point) (ca : DraftAnn) : DraftAnn :=
  { ca with width := cur.x - dragStartPos.x, height := cur.y - dragStartPos.y }

/-- JavaScript `a || b` on strings (the empty string is falsy). -/
def jsOrS (a b : String) : String := if a = "" then b else a

/-- The annotation committed at pointer-up: the `newAnn` record of
AnnotationEditor.tsx:208-216 (`x,y` from `dragStartPos`, signed
`width,height` from the provisional shape, color
`curAnn.color || color`). -/
def newAnnOf (ca : DraftAnn) (dragStartPos : Point) (color : String) (freshId : ℕ) : Ann :=
  { id := freshId
    type := ca.type
    x := dragStartPos.x
    y := dragStartPos.y
    width := some ca.width
    height := some ca.height
    text := none
    color := jsOrS ca.color color
    fontSize := none
    fontWeight := none
    imageData := none }

/-- Pointer-up ending a drawing gesture (AnnotationEditor.tsx:199-221,
with `isDrawing` true): if
`Math.abs(curAnn.width || 0) > 5 || Math.abs(... height||0) > 5`
the provisional shape is appended to the annotation list as `newAnnOf`
and gets selected; otherwise it is discarded (the list and the selection
are unchanged).  Returns (annotation list, selected id, current
annotation) after the handler. -/
def handleMouseUp (annotations : List Ann) (dragStartPos : Point)
    (curAnn : Option DraftAnn) (selectedId : Option ℕ)
    (color : String) (freshId : ℕ) :
    List Ann × Option ℕ × Option DraftAnn :=
  match curAnn with
  | some ca =>
    if |ca.width| > 5 ∨ |ca.height| > 5 then
      (annotations ++ [newAnnOf ca dragStartPos color freshId], some freshId, none)
    else (annotations, selectedId, none)
  | none => (annotations, selectedId, none)

/-- The draft drawn by the C4 scenario gesture: start at (100,100), drag
to (50,50). -/
def scenarioDraft (color : String) : DraftAnn :=
  drawMove ⟨100, 100⟩ ⟨50, 50⟩ (startShapeDraw AnnType.rect ⟨100, 100⟩ color)

/-- Claim C4: pointer-up commits the provisional shape (appending it and
selecting it) if and only if its absolute width or height exceeds 5; the
committed annotation stores `x,y` equal to the drag start and the signed
`width,height`; otherwise the list and selection are unchanged.  A
gesture from (100,100) to (50,50) commits
`x=100, y=100, width=-50, height=-50`. -/
theorem C4_draw_commit_threshold (anns : List Ann) (dragStart : Point)
    (ca : DraftAnn) (selId : Option ℕ) (color : String) (fid : ℕ) :
    (|ca.width| > 5 ∨ |ca.height| > 5 →
      handleMouseUp anns dragStart (some ca) selId color fid
        = (anns ++ [newAnnOf ca dragStart color fid], some fid, none))
    ∧ (¬(|ca.width| > 5 ∨ |ca.height| > 5) →
      handleMouseUp anns dragStart (some ca) selId color fid = (anns, selId, none))
    ∧ (newAnnOf ca dragStart color fid).x = dragStart.x
    ∧ (newAnnOf ca dragStart color fid).y = dragStart.y
    ∧ (newAnnOf ca dragStart color fid).width = some ca.width
    ∧ (newAnnOf ca dragStart color fid).height = some ca.height
    ∧ (scenarioDraft color).width = -50
    ∧ (scenarioDraft color).height = -50
    ∧ handleMouseUp anns ⟨100, 100⟩ (some (scenarioDraft color)) selId color fid
        = (anns ++ [newAnnOf (scenarioDraft color) ⟨100, 100⟩ color fid], some fid, none) := by
  have hs5 : |(scenarioDraft color).width| > 5 ∨ |(scenarioDraft color).height| > 5 := by
    left
    show |(50:ℚ) - 100| > 5
    norm_num
  refine ⟨fun h => ?_, fun h => ?_, rfl, rfl, rfl, rfl, ?_, ?_, ?_⟩
  · simp only [handleMouseUp, if_pos h]
  · simp only [handleMouseUp, if_neg h]
  · show (50:ℚ) - 100 = -50
    norm_num
  · show (50:ℚ) - 100 = -50
    norm_num
  · simp only [handleMouseUp, if_pos hs5]

/-- Claim C4, witness: at a concrete drawn box of extent (-50,-50) the
threshold test passes and the pointer-up handler commits and selects it;
a concrete 4-unit drag is discarded. -/
theorem C4_draw_commit_threshold_witness :
    (|(scenarioDraft "#ef4444").width| > 5 ∨ |(scenarioDraft "#ef4444").height| > 5)
    ∧ handleMouseUp [] ⟨0, 0⟩ (some (scenarioDraft "#ef4444")) none "#ef4444" 7
        = ([newAnnOf (scenarioDraft "#ef4444") ⟨0, 0⟩ "#ef4444" 7], some 7, none)
    ∧ ¬(|(4:ℚ)| > 5 ∨ |(3:ℚ)| > 5)
    ∧ handleMouseUp [] ⟨0, 0⟩
        (some ⟨AnnType.rect, 0, 0, 4, 3, "#ef4444"⟩) none "#ef4444" 7
        = ([], none, none) := by
  have h1 : |(scenarioDraft "#ef4444").width| > 5 ∨ |(scenarioDraft "#ef4444").height| > 5 := by
    left
    show |(50:ℚ) - 100| > 5
    norm_num
  have h2 : ¬(|(4:ℚ)| > 5 ∨ |(3:ℚ)| > 5) := by norm_num
  have h2' : ¬(|(⟨AnnType.rect, 0, 0, 4, 3, "#ef4444"⟩ : DraftAnn).width| > 5
      ∨ |(⟨AnnType.rect, 0, 0, 4, 3, "#ef4444"⟩ : DraftAnn).height| > 5) := h2
  exact ⟨h1,
    (C4_draw_commit_threshold [] ⟨0, 0⟩ (scenarioDraft "#ef4444") none "#ef4444" 7).1 h1,
    h2,
    (C4_draw_commit_threshold [] ⟨0, 0⟩ ⟨AnnType.rect, 0, 0, 4, 3, "#ef4444"⟩
      none "#ef4444" 7).2.1 h2'⟩

/-- Claim C10: a highlight drawn by a gesture is created with color
`#ffff00` regardless of the toolbar color; the pointer-down handler leaves
the shared toolbar color unchanged; every other drawn shape kind is
created with the toolbar color; and the commit at pointer-up keeps the
draft's `#ffff00` (the `||` fallback to the toolbar color only applies to
an empty draft color). -/
theorem C10_highlight_color_fixed (pos : Point) (color : String) (t : AnnType)
    (ds : Point) (ca : DraftAnn) (fid : ℕ) :
    (startShapeDraw AnnType.highlight pos color).color = "#ffff00"
    ∧ (startShapeDrawState AnnType.highlight pos color).2 = color
    ∧ (t ≠ AnnType.highlight → (startShapeDraw t pos color).color = color)
    ∧ (ca.color = "#ffff00" → (newAnnOf ca ds color fid).color = "#ffff00") := by
  refine ⟨rfl, rfl, fun ht => ?_, fun hc => ?_⟩
  · simp only [startShapeDraw, if_neg ht]
  · simp only [newAnnOf, hc, jsOrS]
    rw [if_neg (by decide)]

/-- Claim C10, witness: with the toolbar set to red, a drawn highlight is
created and committed yellow while a drawn rectangle is created red. -/
theorem C10_highlight_color_fixed_witness :
    (AnnType.rect ≠ AnnType.highlight
      ∧ (startShapeDraw AnnType.rect ⟨1, 2⟩ "#ef4444").color = "#ef4444")
    ∧ ((startShapeDraw AnnType.highlight ⟨1, 2⟩ "#ef4444").color = "#ffff00"
      ∧ (newAnnOf (startShapeDraw AnnType.highlight ⟨1, 2⟩ "#ef4444") ⟨1, 2⟩
          "#ef4444" 3).color = "#ffff00") := by
  have hne : AnnType.rect ≠ AnnType.highlight := by decide
  have hc : (startShapeDraw AnnType.highlight ⟨1, 2⟩ "#ef4444").color = "#ffff00" :=
    (C10_highlight_color_fixed ⟨1, 2⟩ "#ef4444" AnnType.rect ⟨1, 2⟩
      (startShapeDraw AnnType.highlight ⟨1, 2⟩ "#ef4444") 3).1
  exact ⟨⟨hne, (C10_highlight_color_fixed ⟨1, 2⟩ "#ef4444" AnnType.rect ⟨1, 2⟩
      (startShapeDraw AnnType.highlight ⟨1, 2⟩ "#ef4444") 3).2.2.1 hne⟩,
    hc,
    (C10_highlight_color_fixed ⟨1, 2⟩ "#ef4444" AnnType.rect ⟨1, 2⟩
      (startShapeDraw AnnType.highlight ⟨1, 2⟩ "#ef4444") 3).2.2.2 hc⟩

/-! ## Pages, rotation and export (App.tsx, pdfUtils.ts) -/

/-- The `PDFPageData` record of src/types.ts, restricted to the fields
the rotation/export claims touch (`thumbnailUrl`, `originalWidth/Height`
are irrelevant here and omitted; `sourcePdfId` is modelled as a natural). -/
structure Page where
  id : ℕ
  sourcePdfId : ℕ
  pageIndex : ℕ
  rotation : ℕ
  annotations : List Ann
deriving DecidableEq, Repr

/-- One page's update inside `rotateSelected` (App.tsx:147-154):
`selectedPageIds.has(p.id) ? { ...p, rotation: (p.rotation + 90) % 360 } : p`. -/
def rotatePage (sel : ℕ → Bool) (p : Page) : Page :=
  if sel p.id then { p with rotation := (p.rotation + 90) % 360 } else p

/-- `rotateSelected` (App.tsx:147-154): map `rotatePage` over the list. -/
def rotateSelected (sel : ℕ → Bool) (pages : List Page) : List Page :=
  pages.map (rotatePage sel)

/-- The rotation written onto the copied output page at export
(pdfUtils.ts:104-105):
`copiedPage.setRotation(degrees(currentRotation + pageData.rotation))`
where `currentRotation` is the source page's pre-existing rotation. -/
def exportRotationOf (currentRotation : ℕ) (p : Page) : ℕ :=
  currentRotation + p.rotation

/-- Claim C7: each rotate action sets a selected page's stored rotation to
(rotation + 90) mod 360 and leaves unselected pages untouched
(independently per page, rotateSelected maps the per-page update over the
list); export writes source rotation + stored rotation (a sum, not a
replacement); three rotations starting from 0 store 270, and the exported
rotation is then congruent to source rotation + 270 mod 360. -/
theorem C7_rotation_per_page_and_export (sel : ℕ → Bool) (p : Page)
    (pages : List Page) (src : ℕ) :
    (sel p.id = true → (rotatePage sel p).rotation = (p.rotation + 90) % 360)
    ∧ (sel p.id = false → rotatePage sel p = p)
    ∧ rotateSelected sel pages = pages.map (rotatePage sel)
    ∧ (∀ q : Page, exportRotationOf src q = src + q.rotation)
    ∧ (p.rotation = 0 → sel p.id = true →
        (rotatePage sel (rotatePage sel (rotatePage sel p))).rotation = 270)
    ∧ (p.rotation = 270 →
        exportRotationOf src p ≡ src + 270 [MOD 360]) := by
    refine ⟨fun hs => ?_, fun hs => ?_, rfl, fun q => rfl, fun h0 hs => ?_, fun h270 => ?_⟩
    · simp only [rotatePage, hs, if_true]
    · simp only [rotatePage, hs, Bool.false_eq_true, if_false]
    · simp only [rotatePage, hs, if_true, h0]
    · simp only [exportRotationOf, h270]
      rfl

/-- Claim C7, witness: a selected page at rotation 0 rotated three times
stores 270 and exports at source rotation 90 + 270 = 360 ≡ 0 mod 360;
an unselected page is untouched. -/
theorem C7_rotation_per_page_and_export_witness :
    ((fun i => i == 2) (2 : ℕ) = true
      ∧ (rotatePage (fun i => i == 2)
          (rotatePage (fun i => i == 2)
            (rotatePage (fun i => i == 2) ⟨2, 0, 1, 0, []⟩))).rotation = 270)
    ∧ ((fun i => i == 2) (1 : ℕ) = false
      ∧ rotatePage (fun i => i == 2) ⟨1, 0, 0, 0, []⟩ = ⟨1, 0, 0, 0, []⟩)
    ∧ ((⟨2, 0, 1, 270, []⟩ : Page).rotation = 270
      ∧ exportRotationOf 90 ⟨2, 0, 1, 270, []⟩ ≡ 90 + 270 [MOD 360]) := by
  refine ⟨⟨rfl, ?_⟩, ⟨rfl, ?_⟩, rfl, ?_⟩
  · exact (C7_rotation_per_page_and_export (fun i => i == 2) ⟨2, 0, 1, 0, []⟩ [] 0).2.2.2.2.1
      rfl rfl
  · exact (C7_rotation_per_page_and_export (fun i => i == 2) ⟨1, 0, 0, 0, []⟩ [] 0).2.1 rfl
  · exact (C7_rotation_per_page_and_export (fun i => i == 2) ⟨2, 0, 1, 270, []⟩ [] 90).2.2.2.2.2
      rfl

/-- The drawing side effects export performs on one copied page, in order
(generateFinalPDF, pdfUtils.ts:100-206). -/
inductive ExportStep where
  | copyPage : ℕ → ExportStep
  | setRotationStep : ℕ → ExportStep
  | drawFlattenedRaster : ExportStep
  | addPage : ExportStep
deriving DecidableEq, Repr

/-- Per-page export pipeline of `generateFinalPDF` (pdfUtils.ts:100-206):
copy the source page, set its rotation, and only when
`pageData.annotations.length > 0` rasterize the annotation set and draw
the encoded raster onto the page (lines 108-204), then add the page. -/
def exportPageSteps (currentRotation : ℕ) (p : Page) : List ExportStep :=
  [ExportStep.copyPage p.pageIndex,
   ExportStep.setRotationStep (exportRotationOf currentRotation p)]
  ++ (if p.annotations.length > 0 then [ExportStep.drawFlattenedRaster] else [])
  ++ [ExportStep.addPage]

/-- Claim C9: a page with an empty annotation list is exported without the
annotation-flattening step — no raster drawing occurs, the steps are
exactly copy, set rotation, add — so the copied page content is reused
as-is. -/
theorem C9_no_flatten_without_annotations (src : ℕ) (p : Page)
    (h : p.annotations = []) :
    ExportStep.drawFlattenedRaster ∉ exportPageSteps src p
    ∧ exportPageSteps src p
        = [ExportStep.copyPage p.pageIndex,
           ExportStep.setRotationStep (exportRotationOf src p),
           ExportStep.addPage] := by
  have hlen : ¬ p.annotations.length > 0 := by
    simp [h]
  constructor
  · simp [exportPageSteps, hlen]
  · simp [exportPageSteps, hlen]

/-- Claim C9, witness: a concrete annotation-free page is exported with
exactly the copy / rotate / add steps and no flatten step. -/
theorem C9_no_flatten_without_annotations_witness :
    (⟨5, 0, 3, 90, []⟩ : Page).annotations = []
    ∧ ExportStep.drawFlattenedRaster ∉ exportPageSteps 180 ⟨5, 0, 3, 90, []⟩
    ∧ exportPageSteps 180 ⟨5, 0, 3, 90, []⟩
        = [ExportStep.copyPage 3, ExportStep.setRotationStep 270, ExportStep.addPage] :=
  ⟨rfl, (C9_no_flatten_without_annotations 180 ⟨5, 0, 3, 90, []⟩ rfl).1,
    (C9_no_flatten_without_annotations 180 ⟨5, 0, 3, 90, []⟩ rfl).2⟩

/-! ## Claim C8: buffer duplication before parsing/rasterization -/

/-- A JavaScript ArrayBuffer, modelled with an identity: two buffers with
equal contents but different ids are distinct objects. -/
structure Buffer where
  bufId : ℕ
  contents : List ℕ
deriving DecidableEq, Repr

/-- `buf.slice(0)`: a fresh buffer object (new identity) holding a copy of
the same bytes. -/
def slice0 (freshBufId : ℕ) (b : Buffer) : Buffer :=
  { bufId := freshBufId, contents := b.contents }

/-- The `SourcePDF` record of src/types.ts: id, name and backing bytes. -/
structure SourcePDF where
  srcId : ℕ
  name : String
  data : Buffer
deriving DecidableEq, Repr

/-- The `data` argument `loadPDF` hands to the PDF.js parse call
(pdfUtils.ts:51): `pdfjsLib.getDocument({ data: arrayBuffer.slice(0) })`. -/
def loadPDF_parseArg (freshBufId : ℕ) (arrayBuffer : Buffer) : Buffer :=
  slice0 freshBufId arrayBuffer

/-- The `data` argument `renderHighResPage` hands to the PDF.js parse call
(pdfUtils.ts:214): `pdfjsLib.getDocument({ data: source.data.slice(0) })`. -/
def renderHighResPage_parseArg (freshBufId : ℕ) (source : SourcePDF) : Buffer :=
  slice0 freshBufId source.data

/-- The bytes `generateFinalPDF` hands to the pdf-lib load call
(pdfUtils.ts:98): `PDFLib.PDFDocument.load(source.data)` — the stored
buffer itself, with no `slice`. -/
def generateFinalPDF_loadArg (source : SourcePDF) : Buffer :=
  source.data

/-- A concrete source document used as the C8 counterexample input. -/
def srcDoc : SourcePDF :=
  { srcId := 1, name := "a.pdf", data := { bufId := 0, contents := [37, 80, 68, 70] } }

/-- Claim C8 as stated is false: the export path's per-page source load
passes the stored backing buffer itself (same object identity), not a
duplicate — on the concrete `srcDoc` the argument is exactly
`srcDoc.data`. -/
theorem C8_buffer_copy_counterexample :
    generateFinalPDF_loadArg srcDoc = srcDoc.data
    ∧ (generateFinalPDF_loadArg srcDoc).bufId = srcDoc.data.bufId := by
  exact ⟨rfl, rfl⟩

/-- Claim C8, amended: the two rasterization calls through the PDF reader
(initial load and high-res re-render) pass a duplicate of the backing
bytes — a fresh buffer with the same contents, never the original object —
but the export path's per-page parse call passes the original stored
buffer itself. -/
theorem C8_buffer_copy_amended (freshBufId : ℕ) (arrayBuffer : Buffer)
    (source : SourcePDF) :
    (freshBufId ≠ arrayBuffer.bufId →
      loadPDF_parseArg freshBufId arrayBuffer ≠ arrayBuffer
      ∧ (loadPDF_parseArg freshBufId arrayBuffer).contents = arrayBuffer.contents)
    ∧ (freshBufId ≠ source.data.bufId →
      renderHighResPage_parseArg freshBufId source ≠ source.data
      ∧ (renderHighResPage_parseArg freshBufId source).contents = source.data.contents)
    ∧ generateFinalPDF_loadArg source = source.data := by
  refine ⟨fun hne => ⟨fun heq => hne ?_, rfl⟩, fun hne => ⟨fun heq => hne ?_, rfl⟩, rfl⟩
  · exact congrArg Buffer.bufId heq
  · exact congrArg Buffer.bufId heq

/-- Claim C8 (amended), witness: with a fresh id distinct from the stored
buffer's id, both reader calls get a distinct duplicate, and the export
load gets the original. -/
theorem C8_buffer_copy_amended_witness :
    ((7 : ℕ) ≠ srcDoc.data.bufId
      ∧ loadPDF_parseArg 7 srcDoc.data ≠ srcDoc.data
      ∧ (loadPDF_parseArg 7 srcDoc.data).contents = srcDoc.data.contents)
    ∧ (renderHighResPage_parseArg 7 srcDoc ≠ srcDoc.data
      ∧ (renderHighResPage_parseArg 7 srcDoc).contents = srcDoc.data.contents)
    ∧ generateFinalPDF_loadArg srcDoc = srcDoc.data := by
  have hne : (7 : ℕ) ≠ srcDoc.data.bufId := by decide
  obtain ⟨h1, h2, h3⟩ := C8_buffer_copy_amended 7 srcDoc.data srcDoc
  exact ⟨⟨hne, (h1 hne).1, (h1 hne).2⟩, ⟨(h2 hne).1, (h2 hne).2⟩, h3⟩

/-! ## Claim C5: arrow rendering geometry (over ℝ) -/

/-- `Math.atan2(y, x)`: the argument of the complex number `x + y*i`
(same value and branch cut: range (-pi, pi], `atan2 0 0 = 0`). -/
noncomputable def atan2 (y x : ℝ) : ℝ := Complex.arg ⟨x, y⟩

/-- The primitives one arrow draw produces: shaft endpoints and the two
base vertices of the triangular head. -/
structure ArrowPrims where
  shaftFrom : ℝ × ℝ
  shaftTo : ℝ × ℝ
  headA : ℝ × ℝ
  headB : ℝ × ℝ

/-- The arrow geometry shared by the export flattener
(pdfUtils.ts:158-180) and, at scaled inputs, the clipboard renderer
(App.tsx:244-259): shaft from `(x, y)` to `(x + w, y + h)`; triangular
head of length `L` back from the terminal point at the shaft angle
± pi/6 (30 degrees). -/
noncomputable def arrowPrims (x y w h L : ℝ) : ArrowPrims :=
  let fromX := x
  let fromY := y
  let toX := x + w
  let toY := y + h
  let angle := atan2 (toY - fromY) (toX - fromX)
  { shaftFrom := (fromX, fromY)
    shaftTo := (toX, toY)
    headA := (toX - L * Real.cos (angle - Real.pi / 6),
              toY - L * Real.sin (angle - Real.pi / 6))
    headB := (toX - L * Real.cos (angle + Real.pi / 6),
              toY - L * Real.sin (angle + Real.pi / 6)) }

/-- The export flattener's arrow draw for an annotation
(pdfUtils.ts:153-180): `headLen = 20`, raw signed extents. -/
noncomputable def exportArrowPrims (a : Ann) : ArrowPrims :=
  arrowPrims (a.x : ℝ) (a.y : ℝ) (wOr0 a : ℝ) (hOr0 a : ℝ) 20

/-- The clipboard renderer's arrow draw (App.tsx:240-259) at raster scale
`s`: every coordinate and the head length (`headlen = 20 * scale`) are
scaled, and the angle is `Math.atan2(h, w)` on the scaled extents. -/
noncomputable def clipboardArrowPrims (a : Ann) (s : ℝ) : ArrowPrims :=
  let x := (a.x : ℝ) * s
  let y := (a.y : ℝ) * s
  let w := (wOr0 a : ℝ) * s
  let h := (hOr0 a : ℝ) * s
  let headlen := 20 * s
  let angle := atan2 h w
  let toX := x + w
  let toY := y + h
  { shaftFrom := (x, y)
    shaftTo := (toX, toY)
    headA := (toX - headlen * Real.cos (angle - Real.pi / 6),
              toY - headlen * Real.sin (angle - Real.pi / 6))
    headB := (toX - headlen * Real.cos (angle + Real.pi / 6),
              toY - headlen * Real.sin (angle + Real.pi / 6)) }

/-- Euclidean distance in the canvas plane. -/
noncomputable def dist2 (p q : ℝ × ℝ) : ℝ :=
  Real.sqrt ((p.1 - q.1) ^ 2 + (p.2 - q.2) ^ 2)

/-- Point reflection about `c`. -/
noncomputable def reflectPt (c p : ℝ × ℝ) : ℝ × ℝ :=
  (2 * c.1 - p.1, 2 * c.2 - p.2)

/-- Point reflection of every primitive of an arrow. -/
noncomputable def reflectArrow (c : ℝ × ℝ) (a : ArrowPrims) : ArrowPrims :=
  { shaftFrom := reflectPt c a.shaftFrom
    shaftTo := reflectPt c a.shaftTo
    headA := reflectPt c a.headA
    headB := reflectPt c a.headB }

/-- The annotation with both extents negated (the flip of claim C5). -/
def flipAnn (a : Ann) : Ann :=
  { a with width := some (-(wOr0 a)), height := some (-(hOr0 a)) }

lemma mk_ne_zero_of {x y : ℝ} (hxy : ¬(x = 0 ∧ y = 0)) : (⟨x, y⟩ : ℂ) ≠ 0 := by
  intro h
  exact hxy ⟨by simpa using congrArg Complex.re h, by simpa using congrArg Complex.im h⟩

lemma neg_mk_complex (x y : ℝ) : (⟨-x, -y⟩ : ℂ) = -⟨x, y⟩ := by
  apply Complex.ext <;> simp

lemma cos_atan2_neg {x y : ℝ} (hxy : ¬(x = 0 ∧ y = 0)) :
    Real.cos (atan2 (-y) (-x)) = -Real.cos (atan2 y x) := by
  have hz : (⟨x, y⟩ : ℂ) ≠ 0 := mk_ne_zero_of hxy
  have hz' : (⟨-x, -y⟩ : ℂ) ≠ 0 := by
    rw [neg_mk_complex]; exact neg_ne_zero.mpr hz
  rw [atan2, atan2, Complex.cos_arg hz', Complex.cos_arg hz, neg_mk_complex,
    Complex.abs.map_neg]
  simp [neg_div]

lemma sin_atan2_neg (y x : ℝ) :
    Real.sin (atan2 (-y) (-x)) = -Real.sin (atan2 y x) := by
  rw [atan2, atan2, Complex.sin_arg, Complex.sin_arg, neg_mk_complex,
    Complex.abs.map_neg]
  simp [neg_div]

lemma cos_atan2_neg_sub {x y : ℝ} (hxy : ¬(x = 0 ∧ y = 0)) (t : ℝ) :
    Real.cos (atan2 (-y) (-x) - t) = -Real.cos (atan2 y x - t) := by
  rw [Real.cos_sub, Real.cos_sub, cos_atan2_neg hxy, sin_atan2_neg]
  ring

lemma sin_atan2_neg_sub {x y : ℝ} (hxy : ¬(x = 0 ∧ y = 0)) (t : ℝ) :
    Real.sin (atan2 (-y) (-x) - t) = -Real.sin (atan2 y x - t) := by
  rw [Real.sin_sub, Real.sin_sub, cos_atan2_neg hxy, sin_atan2_neg]
  ring

lemma cos_atan2_neg_add {x y : ℝ} (hxy : ¬(x = 0 ∧ y = 0)) (t : ℝ) :
    Real.cos (atan2 (-y) (-x) + t) = -Real.cos (atan2 y x + t) := by
  rw [Real.cos_add, Real.cos_add, cos_atan2_neg hxy, sin_atan2_neg]
  ring

lemma sin_atan2_neg_add {x y : ℝ} (hxy : ¬(x = 0 ∧ y = 0)) (t : ℝ) :
    Real.sin (atan2 (-y) (-x) + t) = -Real.sin (atan2 y x + t) := by
  rw [Real.sin_add, Real.sin_add, cos_atan2_neg hxy, sin_atan2_neg]
  ring

lemma cancel_atan2 (u v p q : ℝ) :
    atan2 ((u + p) - u) ((v + q) - v) = atan2 p q := by
  rw [add_sub_cancel_left, add_sub_cancel_left]

lemma dist2_pullback (x y L t : ℝ) :
    dist2 (x, y) (x - L * Real.cos t, y - L * Real.sin t) = |L| := by
  unfold dist2
  dsimp only
  have hsq : (x - (x - L * Real.cos t)) ^ 2 + (y - (y - L * Real.sin t)) ^ 2 = L ^ 2 := by
    have hs := Real.sin_sq_add_cos_sq t
    linear_combination (L ^ 2) * hs
  rw [hsq, Real.sqrt_sq_eq_abs]

/-- The generic flip property of the shared arrow geometry: negating the
extent vector reflects every primitive about the start point. -/
lemma arrowPrims_flip (x y w h L : ℝ) (hwh : ¬(w = 0 ∧ h = 0)) :
    arrowPrims x y (-w) (-h) L = reflectArrow (x, y) (arrowPrims x y w h L) := by
  simp only [arrowPrims, reflectArrow, reflectPt, cancel_atan2]
  rw [cos_atan2_neg_sub hwh, sin_atan2_neg_sub hwh, cos_atan2_neg_add hwh,
    sin_atan2_neg_add hwh]
  simp only [ArrowPrims.mk.injEq, Prod.mk.injEq]
  exact ⟨⟨by ring, by ring⟩, ⟨by ring, by ring⟩, ⟨by ring, by ring⟩, by ring, by ring⟩


/-- Claim C5: the arrow renderer draws the shaft from `(x, y)` to
`(x + w, y + h)`; the two head base vertices sit at the shaft angle
± 30 degrees back from the terminal point; the head length is the fixed
constant 20 (independent of the extents, hence of the shaft length); the
clipboard renderer is the same geometry at scaled inputs; and when the
extent vector is nonzero, negating both extents reflects the whole arrow
— shaft and head — about the start point. -/
theorem C5_arrow_head_geometry (a : Ann) (s : ℝ) :
    (exportArrowPrims a).shaftFrom = ((a.x : ℝ), (a.y : ℝ))
    ∧ (exportArrowPrims a).shaftTo = ((a.x : ℝ) + (wOr0 a : ℝ), (a.y : ℝ) + (hOr0 a : ℝ))
    ∧ (exportArrowPrims a).headA
        = ((a.x : ℝ) + (wOr0 a : ℝ)
            - 20 * Real.cos (atan2 (hOr0 a : ℝ) (wOr0 a : ℝ) - Real.pi / 6),
          (a.y : ℝ) + (hOr0 a : ℝ)
            - 20 * Real.sin (atan2 (hOr0 a : ℝ) (wOr0 a : ℝ) - Real.pi / 6))
    ∧ (exportArrowPrims a).headB
        = ((a.x : ℝ) + (wOr0 a : ℝ)
            - 20 * Real.cos (atan2 (hOr0 a : ℝ) (wOr0 a : ℝ) + Real.pi / 6),
          (a.y : ℝ) + (hOr0 a : ℝ)
            - 20 * Real.sin (atan2 (hOr0 a : ℝ) (wOr0 a : ℝ) + Real.pi / 6))
    ∧ dist2 (exportArrowPrims a).shaftTo (exportArrowPrims a).headA = 20
    ∧ dist2 (exportArrowPrims a).shaftTo (exportArrowPrims a).headB = 20
    ∧ clipboardArrowPrims a s
        = arrowPrims ((a.x : ℝ) * s) ((a.y : ℝ) * s)
            ((wOr0 a : ℝ) * s) ((hOr0 a : ℝ) * s) (20 * s)
    ∧ (¬(wOr0 a = 0 ∧ hOr0 a = 0) →
        exportArrowPrims (flipAnn a)
          = reflectArrow ((a.x : ℝ), (a.y : ℝ)) (exportArrowPrims a)) := by
  refine ⟨rfl, rfl, ?_, ?_, ?_, ?_, ?_, fun hwh => ?_⟩
  · simp only [exportArrowPrims, arrowPrims, cancel_atan2]
  · simp only [exportArrowPrims, arrowPrims, cancel_atan2]
  · simp only [exportArrowPrims, arrowPrims]
    rw [dist2_pullback]
    norm_num
  · simp only [exportArrowPrims, arrowPrims]
    rw [dist2_pullback]
    norm_num
  · simp only [clipboardArrowPrims, arrowPrims, cancel_atan2]
  · have hwh' : ¬((wOr0 a : ℝ) = 0 ∧ (hOr0 a : ℝ) = 0) := by
      intro hc
      exact hwh ⟨by exact_mod_cast hc.1, by exact_mod_cast hc.2⟩
    have hflip : exportArrowPrims (flipAnn a)
        = arrowPrims (a.x : ℝ) (a.y : ℝ) (-(wOr0 a : ℝ)) (-(hOr0 a : ℝ)) 20 := by
      simp only [exportArrowPrims, flipAnn, wOr0, hOr0, Option.getD_some]
      push_cast
      rfl
    rw [hflip, arrowPrims_flip _ _ _ _ _ hwh']
    rfl

/-- A concrete arrow annotation with extent vector (3, 4), used by the C5
witness. -/
def arrowAnn : Ann :=
  { id := 4, type := AnnType.arrow, x := 1, y := 2,
    width := some 3, height := some 4, text := none, color := "#3b82f6",
    fontSize := none, fontWeight := none, imageData := none }

/-- Claim C5, witness: the concrete arrow (3, 4) has a nonzero extent
vector, so negating both extents reflects its rendered primitives about
the start point, and its head vertices sit at distance 20 from the
terminal point. -/
theorem C5_arrow_head_geometry_witness :
    ¬(wOr0 arrowAnn = 0 ∧ hOr0 arrowAnn = 0)
    ∧ exportArrowPrims (flipAnn arrowAnn)
        = reflectArrow ((arrowAnn.x : ℝ), (arrowAnn.y : ℝ)) (exportArrowPrims arrowAnn)
    ∧ dist2 (exportArrowPrims arrowAnn).shaftTo (exportArrowPrims arrowAnn).headA = 20 := by
  have hwh : ¬(wOr0 arrowAnn = 0 ∧ hOr0 arrowAnn = 0) := by
    intro hc
    have : (3 : ℚ) = 0 := hc.1
    norm_num at this
  exact ⟨hwh, (C5_arrow_head_geometry arrowAnn 1).2.2.2.2.2.2.2 hwh,
    (C5_arrow_head_geometry arrowAnn 1).2.2.2.2.1⟩

end PDFEditor
